import Mathlib

/-!
Verification of `verl/tools/deepproof_tool.py` (the `ListTool` and
`FStarExecutionTool` classes) against its natural-language specification.

The Python module is shallowly embedded:
* JSON values (Python objects produced by `json.loads` / fed to `json.dumps`
  and `aiohttp`'s `json=` argument) are the mutual inductive family
  `Json` / `JsonArr` / `JsonObj`; Python dicts keep insertion order, so
  objects are sequences of key-value pairs.
* Python exceptions are the record `PyExc` (the rendering of `e.__class__`
  and `str(e)`); fallible code returns `Except PyExc α`.
* The network is an oracle `net : HttpRequest → NetOutcome` supplied as a
  parameter: `execute` builds one request and observes one outcome
  (a transport exception, or an HTTP response with a status, a reason
  phrase, and a body whose JSON decoding either succeeds or raises).
  `response.raise_for_status()` (aiohttp) raises exactly when the status
  is `≥ 400`.
* `str(uuid4())` is modelled by a `fresh : String` argument.
* `os.environ.get("FSTAR_VERIFIER_SERVER_HOST")` is an `Option String`
  argument.
Numbers inside JSON are modelled as rationals: every numeric literal the
claims exercise (0, 1.0, -2) is exactly representable, and Python's `==`
on int/float/bool compares exact values there.
-/

namespace Deepproof

mutual

/-- JSON values / the Python objects handled by the tool code. -/
inductive Json where
  | null : Json
  | bool : Bool → Json
  | num : ℚ → Json
  | str : String → Json
  | arr : JsonArr → Json
  | obj : JsonObj → Json

/-- The elements of a JSON array (a Python list). -/
inductive JsonArr where
  | nil : JsonArr
  | cons : Json → JsonArr → JsonArr

/-- The key-value pairs of a JSON object (a Python dict, which preserves
insertion order and has unique keys). -/
inductive JsonObj where
  | nil : JsonObj
  | cons : String → Json → JsonObj → JsonObj

end

/-- Build an array value from a list (literal notation helper). -/
def JsonArr.ofList : List Json → JsonArr
  | [] => JsonArr.nil
  | x :: xs => JsonArr.cons x (JsonArr.ofList xs)

/-- Build an object value from a list of pairs (literal notation helper). -/
def JsonObj.ofList : List (String × Json) → JsonObj
  | [] => JsonObj.nil
  | (k, v) :: fs => JsonObj.cons k v (JsonObj.ofList fs)

/-- A raised Python exception, as the except-clause of the source renders it:
`kind` is the f-string image of `e.__class__`, `detail` that of `str(e)`. -/
structure PyExc where
  kind : String
  detail : String
deriving DecidableEq, Repr

/-- First-match association-list lookup (Python dict access on the
`parameters` / `kwargs` dicts; keys are unique in every dict the code
receives, so first-match is exact). -/
def alistFind (fs : List (String × Json)) (k : String) : Option Json :=
  match fs with
  | [] => none
  | (k', v) :: rest => if k' = k then some v else alistFind rest k

/-- First-match lookup inside a decoded JSON object. -/
def objFind (fs : JsonObj) (k : String) : Option Json :=
  match fs with
  | JsonObj.nil => none
  | JsonObj.cons k' v rest => if k' = k then some v else objFind rest k

/-- Python `d[k]` on a dict: `KeyError` when the key is absent
(`str(KeyError)` shows the repr of the key, hence the quotes). -/
def dictGetItem (d : List (String × Json)) (k : String) : Except PyExc Json :=
  match alistFind d k with
  | some v => Except.ok v
  | none => Except.error ⟨"<class \x27KeyError\x27>", "\x27" ++ k ++ "\x27"⟩

/-- The Python type name of a decoded JSON value (for exception details). -/
def pyTypeName : Json → String
  | Json.null => "NoneType"
  | Json.bool _ => "bool"
  | Json.num _ => "float"
  | Json.str _ => "str"
  | Json.arr _ => "list"
  | Json.obj _ => "dict"

/-- Python `x[k]` with a string key on an arbitrary decoded-JSON value:
dict access when `x` is a dict, `TypeError` otherwise. -/
def jsonGetItem (j : Json) (k : String) : Except PyExc Json :=
  match j with
  | Json.obj fs =>
      match objFind fs k with
      | some v => Except.ok v
      | none => Except.error ⟨"<class \x27KeyError\x27>", "\x27" ++ k ++ "\x27"⟩
  | _ =>
      Except.error ⟨"<class \x27TypeError\x27>",
        pyTypeName j ++ " indices must be integers, not str"⟩

/-- The single outbound HTTP request `execute` performs:
`session.post(url, json=payload, timeout=aiohttp.ClientTimeout(total=15))`.
`timeoutTotal` is the `total=` argument, in seconds. -/
structure HttpRequest where
  url : String
  body : List (String × Json)
  timeoutTotal : Nat

/-- What the network does for one request: either some exception is raised
while sending/awaiting (timeout, connection refused, DNS failure, ...), or a
response arrives with an HTTP `status`, a reason phrase, and a body whose
JSON decoding (`await response.json()`) either yields a value or raises
(malformed JSON, wrong content type). -/
inductive NetOutcome where
  | exn : PyExc → NetOutcome
  | response : Nat → String → Except PyExc Json → NetOutcome

/-- `response.raise_for_status()`: aiohttp raises `ClientResponseError`
exactly when `status ≥ 400`; otherwise it is a no-op. -/
def raiseForStatus (status : Nat) (reason : String) (url : String) :
    Except PyExc Unit :=
  if 400 ≤ status then
    Except.error ⟨"<class \x27aiohttp.client_exceptions.ClientResponseError\x27>",
      toString status ++ ", message=\x27" ++ reason ++ "\x27, url=\x27" ++ url ++ "\x27"⟩
  else Except.ok ()

/-- Python `str(b)` for a bool. -/
def pyStrBool (b : Bool) : String := if b then "True" else "False"

/-- Python `x == q` for a decoded JSON value against an exact numeric
literal: numbers compare by value, `True`/`False` equal `1`/`0`
(Python bools are ints), everything else is unequal. Never raises. -/
def pyEqNum (j : Json) (q : ℚ) : Bool :=
  match j with
  | Json.num r => decide (r = q)
  | Json.bool b => decide ((if b then (1 : ℚ) else 0) = q)
  | _ => false

/-- `resp_json.get(k)` / `resp_json.get(k, default)`: only dicts have
`.get`; on any other decoded value `AttributeError` is raised. -/
def pyDictGet (j : Json) (k : String) : Except PyExc (Option Json) :=
  match j with
  | Json.obj fs => Except.ok (objFind fs k)
  | _ =>
      Except.error ⟨"<class \x27AttributeError\x27>",
        "\x27" ++ pyTypeName j ++ "\x27 object has no attribute \x27get\x27"⟩

/-- `resp_json.get("return_code", -2) == 0`: the default `-2` is taken when
the key is absent, and `-2 == 0` is `False`. -/
def returnCodeOk (respJson : Json) : Except PyExc Bool :=
  match pyDictGet respJson "return_code" with
  | Except.error e => Except.error e
  | Except.ok (some j) => Except.ok (pyEqNum j 0)
  | Except.ok none => Except.ok (pyEqNum (Json.num (-2)) 0)

/-- `resp_json.get("score") == 1.0`: an absent key yields `None`, and
`None == 1.0` is `False`. -/
def scoreOk (respJson : Json) : Except PyExc Bool :=
  match pyDictGet respJson "score" with
  | Except.error e => Except.error e
  | Except.ok (some j) => Except.ok (pyEqNum j 1)
  | Except.ok none => Except.ok false

/-- `result_msg + resp_json.get("messages", "")`: the default is the empty
string; a present non-string value makes the `+` raise `TypeError`. -/
def messagesField (respJson : Json) : Except PyExc String :=
  match pyDictGet respJson "messages" with
  | Except.error e => Except.error e
  | Except.ok none => Except.ok ""
  | Except.ok (some (Json.str s)) => Except.ok s
  | Except.ok (some j) =>
      Except.error ⟨"<class \x27TypeError\x27>",
        "can only concatenate str (not \"" ++ pyTypeName j ++ "\") to str"⟩

/-- The result triple `(message, score, metadata)` the tools return. -/
abbrev ToolResult : Type := String × Int × List (String × Json)

/-- The body of the `try:` block of `FStarExecutionTool.execute`, given the
outcome the network produced for the single POST: check the status, decode
the body, build the verdict line, append the messages field. Any
`Except.error` here is an exception still to be caught by the
`except Exception` clause. -/
def tryBlock (url : String) (out : NetOutcome) : Except PyExc ToolResult :=
  match out with
  | NetOutcome.exn e => Except.error e
  | NetOutcome.response status reason body =>
      match raiseForStatus status reason url with
      | Except.error e => Except.error e
      | Except.ok _ =>
          match body with
          | Except.error e => Except.error e
          | Except.ok respJson =>
              match returnCodeOk respJson with
              | Except.error e => Except.error e
              | Except.ok rcOk =>
                  match scoreOk respJson with
                  | Except.error e => Except.error e
                  | Except.ok sOk =>
                      match messagesField respJson with
                      | Except.error e => Except.error e
                      | Except.ok msgs =>
                          Except.ok
                            (("Verification Success: " ++ pyStrBool (rcOk && sOk) ++
                              "\n") ++ msgs, 0, [])

/-- The `except Exception as e:` clause:
`return f"Runtime error occurred.\n{e.__class__}: {e}", 0, {}`. -/
def runtimeErrorResult (e : PyExc) : ToolResult :=
  ("Runtime error occurred.\n" ++ e.kind ++ ": " ++ e.detail, 0, [])

namespace FStarExecutionTool

/-- `FStarExecutionTool.create`: substitute `str(uuid4())` (the `fresh`
argument) when no id is supplied, and return the id. -/
def create (instance_id : Option String) (fresh : String) : String :=
  match instance_id with
  | none => fresh
  | some i => i

/-- `FStarExecutionTool.execute`. `env` is
`os.environ.get("FSTAR_VERIFIER_SERVER_HOST")`; `net` is the network
oracle; `kwargs` the extra keyword arguments. The lookups
`parameters["code"]` and `kwargs["tools_kwargs"]["example_name"]` happen
before the `try:` block, so their exceptions propagate (`Except.error`);
every exception inside the `try:` block is caught and turned into the
runtime-error triple. -/
def execute (env : Option String) (net : HttpRequest → NetOutcome)
    (_instance_id : String) (parameters : List (String × Json))
    (kwargs : List (String × Json)) : Except PyExc ToolResult :=
  let url := (env.getD "http://localhost:8005") ++ "/check_problem_solution"
  match dictGetItem parameters "code" with
  | Except.error e => Except.error e
  | Except.ok code =>
      match dictGetItem kwargs "tools_kwargs" with
      | Except.error e => Except.error e
      | Except.ok toolsKwargs =>
          match jsonGetItem toolsKwargs "example_name" with
          | Except.error e => Except.error e
          | Except.ok exampleName =>
              match tryBlock url
                  (net ⟨url, [("solution", code), ("problem_id", exampleName)], 15⟩) with
              | Except.ok r => Except.ok r
              | Except.error e => Except.ok (runtimeErrorResult e)

/-- The state `FStarExecutionTool.__init__` sets up: only
`self._instance_dict = {}` (the schema/config are opaque to the claims). -/
structure State where
  _instance_dict : List (String × Json)

/-- The state right after `__init__`. -/
def init : State := ⟨[]⟩

/-- `FStarExecutionTool.release`: `pass` — no state is touched, nothing can
be raised. -/
def release (s : State) (_instance_id : String)
    (_kwargs : List (String × Json)) : State :=
  s

/-- One lifecycle call on a `FStarExecutionTool` instance, with all the
inputs the corresponding method consumes. -/
inductive Op where
  | createOp : Option String → String → Op
  | executeOp : Option String → (HttpRequest → NetOutcome) → String →
      List (String × Json) → List (String × Json) → Op
  | releaseOp : String → List (String × Json) → Op

/-- The state transition of one lifecycle call: `create` only binds a local
and returns, `execute` only reads its arguments and the network, `release`
is `pass`; none of the three assigns to `self`. -/
def step (s : State) : Op → State
  | Op.createOp iid fresh =>
      let _ := create iid fresh
      s
  | Op.executeOp env net iid ps kw =>
      let _ := execute env net iid ps kw
      s
  | Op.releaseOp iid kw => release s iid kw

/-- Run a sequence of lifecycle calls from a given state. -/
def run (s : State) (ops : List Op) : State := ops.foldl step s

end FStarExecutionTool

/-- Hex digit (lowercase, as Python's `json` emits in `\uXXXX` escapes). -/
def hexDigit (n : Nat) : Char :=
  if n < 10 then Char.ofNat (48 + n) else Char.ofNat (87 + n)

/-- Four-digit lowercase hex, for `\uXXXX`. -/
def hex4 (n : Nat) : String :=
  String.mk [hexDigit (n / 4096 % 16), hexDigit (n / 256 % 16),
    hexDigit (n / 16 % 16), hexDigit (n % 16)]

/-- How Python's `json.dumps` (default `ensure_ascii=True`) renders one
character inside a string literal. -/
def jsonEscapeChar (c : Char) : String :=
  if c = '"' then "\\\""
  else if c = '\\' then "\\\\"
  else if c = Char.ofNat 10 then "\\n"
  else if c = Char.ofNat 13 then "\\r"
  else if c = Char.ofNat 9 then "\\t"
  else if c = Char.ofNat 8 then "\\b"
  else if c = Char.ofNat 12 then "\\f"
  else if c.toNat < 32 ∨ 127 ≤ c.toNat then "\\u" ++ hex4 c.toNat
  else String.singleton c

/-- A JSON string literal as `json.dumps` emits it. -/
def jsonQuote (s : String) : String :=
  "\"" ++ String.join (s.toList.map jsonEscapeChar) ++ "\""

/-- `n` spaces. -/
def spaces : Nat → String
  | 0 => ""
  | n + 1 => " " ++ spaces n

mutual

/-- `json.dumps(j, indent=2)` for a value nested at depth `lvl`. Item
separator `","`, key separator `": "`, each element on its own line
indented two spaces per level, as Python's serializer produces. Only
integral numbers occur in this module's data; they render like Python
ints. -/
def dumpsVal (lvl : Nat) : Json → String
  | Json.null => "null"
  | Json.bool b => if b then "true" else "false"
  | Json.num q => if q.den = 1 then toString q.num else toString q
  | Json.str s => jsonQuote s
  | Json.arr JsonArr.nil => "[]"
  | Json.arr xs =>
      "[\n" ++ dumpsItems (lvl + 1) xs ++ "\n" ++ spaces (2 * lvl) ++ "]"
  | Json.obj JsonObj.nil => "\x7b\x7d"
  | Json.obj fs =>
      "\x7b\n" ++ dumpsFields (lvl + 1) fs ++ "\n" ++ spaces (2 * lvl) ++ "\x7d"

/-- The comma-and-newline separated, indented elements of an array. -/
def dumpsItems (lvl : Nat) : JsonArr → String
  | JsonArr.nil => ""
  | JsonArr.cons x JsonArr.nil => spaces (2 * lvl) ++ dumpsVal lvl x
  | JsonArr.cons x (JsonArr.cons y ys) =>
      spaces (2 * lvl) ++ dumpsVal lvl x ++ ",\n" ++
        dumpsItems lvl (JsonArr.cons y ys)

/-- The comma-and-newline separated, indented `"key": value` pairs of an
object, in insertion order. -/
def dumpsFields (lvl : Nat) : JsonObj → String
  | JsonObj.nil => ""
  | JsonObj.cons k v JsonObj.nil =>
      spaces (2 * lvl) ++ jsonQuote k ++ ": " ++ dumpsVal lvl v
  | JsonObj.cons k v (JsonObj.cons k2 v2 gs) =>
      spaces (2 * lvl) ++ jsonQuote k ++ ": " ++ dumpsVal lvl v ++ ",\n" ++
        dumpsFields lvl (JsonObj.cons k2 v2 gs)

end

/-- `json.dumps(j, indent=2)`. -/
def dumps2 (j : Json) : String := dumpsVal 0 j

/-- The `[` character (written by code point to keep bracket characters out
of the source text). -/
def lbrack : Char := Char.ofNat 91

/-- The `]` character. -/
def rbrack : Char := Char.ofNat 93

/-- The opening-brace character. -/
def lbrace : Char := Char.ofNat 123

/-- The closing-brace character. -/
def rbrace : Char := Char.ofNat 125

/-- Drop JSON insignificant whitespace. -/
def skipWs : List Char → List Char
  | [] => []
  | c :: cs =>
      if c = ' ' ∨ c = Char.ofNat 10 ∨ c = Char.ofNat 9 ∨ c = Char.ofNat 13 then
        skipWs cs
      else c :: cs

/-- Value of a decimal digit character. -/
def digitVal (c : Char) : Option Nat :=
  if '0' ≤ c ∧ c ≤ '9' then some (c.toNat - 48) else none

/-- Value of a hexadecimal digit character. -/
def parseHexDigit (c : Char) : Option Nat :=
  if '0' ≤ c ∧ c ≤ '9' then some (c.toNat - 48)
  else if 'a' ≤ c ∧ c ≤ 'f' then some (c.toNat - 87)
  else if 'A' ≤ c ∧ c ≤ 'F' then some (c.toNat - 55)
  else none

/-- Longest leading run of decimal digits. -/
def takeDigits : List Char → List Nat × List Char
  | [] => ([], [])
  | c :: cs =>
      match digitVal c with
      | some d =>
          let p := takeDigits cs
          (d :: p.1, p.2)
      | none => ([], c :: cs)

/-- The natural number a digit run denotes. -/
def natOfDigits (ds : List Nat) : Nat := ds.foldl (fun a d => 10 * a + d) 0

/-- Parse a JSON string body (the opening quote already consumed),
returning the decoded string and the remaining input. -/
def parseStringBody (cs : List Char) : Option (String × List Char) :=
  match cs with
  | [] => none
  | c :: cs1 =>
      if c = '"' then some ("", cs1)
      else if c = '\\' then
        match cs1 with
        | [] => none
        | e :: cs2 =>
            if e = 'u' then
              match cs2 with
              | h1 :: h2 :: h3 :: h4 :: cs3 =>
                  match parseHexDigit h1, parseHexDigit h2,
                      parseHexDigit h3, parseHexDigit h4 with
                  | some d1, some d2, some d3, some d4 =>
                      match parseStringBody cs3 with
                      | some p =>
                          some (String.singleton
                            (Char.ofNat (4096 * d1 + 256 * d2 + 16 * d3 + d4)) ++
                              p.1, p.2)
                      | none => none
                  | _, _, _, _ => none
              | _ => none
            else
              let ch : Option Char :=
                if e = '"' then some '"'
                else if e = '\\' then some '\\'
                else if e = '/' then some '/'
                else if e = 'n' then some (Char.ofNat 10)
                else if e = 't' then some (Char.ofNat 9)
                else if e = 'r' then some (Char.ofNat 13)
                else if e = 'b' then some (Char.ofNat 8)
                else if e = 'f' then some (Char.ofNat 12)
                else none
              match ch, parseStringBody cs2 with
              | some d, some p => some (String.singleton d ++ p.1, p.2)
              | _, _ => none
      else
        match parseStringBody cs1 with
        | some p => some (String.singleton c ++ p.1, p.2)
        | none => none

/-- Parse a JSON number (integer part, optional fraction, optional
exponent) into an exact rational. -/
def parseNumber (cs : List Char) : Option (ℚ × List Char) :=
  let sgn := match cs with
    | c :: r => if c = '-' then (true, r) else (false, cs)
    | [] => (false, cs)
  match takeDigits sgn.2 with
  | ([], _) => none
  | (ds, r1) =>
      let intPart : ℚ := (natOfDigits ds : ℚ)
      let withFrac : ℚ × List Char :=
        match r1 with
        | c :: r =>
            if c = '.' then
              match takeDigits r with
              | ([], _) => (intPart, r1)
              | (fs, rf) =>
                  (intPart + (natOfDigits fs : ℚ) / ((10 : ℚ) ^ fs.length), rf)
            else (intPart, r1)
        | [] => (intPart, r1)
      let withExp : ℚ × List Char :=
        match withFrac.2 with
        | c :: r =>
            if c = 'e' ∨ c = 'E' then
              let es := match r with
                | c2 :: r2 =>
                    if c2 = '-' then (true, r2)
                    else if c2 = '+' then (false, r2)
                    else (false, r)
                | [] => (false, r)
              match takeDigits es.2 with
              | ([], _) => withFrac
              | (xs, rx) =>
                  let e := natOfDigits xs
                  (if es.1 then withFrac.1 / (10 : ℚ) ^ e
                   else withFrac.1 * (10 : ℚ) ^ e, rx)
            else withFrac
        | [] => withFrac
      some (if sgn.1 then -withExp.1 else withExp.1, withExp.2)

mutual

/-- Parse one JSON value (fuel-bounded recursive descent). -/
def parseVal : Nat → List Char → Option (Json × List Char)
  | 0, _ => none
  | fuel + 1, cs =>
      match skipWs cs with
      | [] => none
      | 'n' :: 'u' :: 'l' :: 'l' :: rest => some (Json.null, rest)
      | 't' :: 'r' :: 'u' :: 'e' :: rest => some (Json.bool true, rest)
      | 'f' :: 'a' :: 'l' :: 's' :: 'e' :: rest => some (Json.bool false, rest)
      | c :: rest =>
          if c = '"' then
            match parseStringBody rest with
            | some p => some (Json.str p.1, p.2)
            | none => none
          else if c = lbrack then
            match skipWs rest with
            | [] => none
            | c2 :: r2 =>
                if c2 = rbrack then some (Json.arr JsonArr.nil, r2)
                else
                  match parseArrRest fuel (c2 :: r2) with
                  | some p => some (Json.arr p.1, p.2)
                  | none => none
          else if c = lbrace then
            match skipWs rest with
            | [] => none
            | c2 :: r2 =>
                if c2 = rbrace then some (Json.obj JsonObj.nil, r2)
                else
                  match parseObjRest fuel (c2 :: r2) with
                  | some p => some (Json.obj p.1, p.2)
                  | none => none
          else
            match parseNumber (c :: rest) with
            | some p => some (Json.num p.1, p.2)
            | none => none

/-- Parse the elements of a non-empty JSON array, up to and including the
closing bracket. -/
def parseArrRest : Nat → List Char → Option (JsonArr × List Char)
  | 0, _ => none
  | fuel + 1, cs =>
      match parseVal fuel cs with
      | none => none
      | some (v, r) =>
          match skipWs r with
          | [] => none
          | c :: r2 =>
              if c = ',' then
                match parseArrRest fuel r2 with
                | some p => some (JsonArr.cons v p.1, p.2)
                | none => none
              else if c = rbrack then some (JsonArr.cons v JsonArr.nil, r2)
              else none

/-- Parse the members of a non-empty JSON object, up to and including the
closing brace. -/
def parseObjRest : Nat → List Char → Option (JsonObj × List Char)
  | 0, _ => none
  | fuel + 1, cs =>
      match skipWs cs with
      | [] => none
      | c :: r =>
          if c = '"' then
            match parseStringBody r with
            | none => none
            | some (k, r1) =>
                match skipWs r1 with
                | [] => none
                | c2 :: r2 =>
                    if c2 = ':' then
                      match parseVal fuel r2 with
                      | none => none
                      | some (v, r3) =>
                          match skipWs r3 with
                          | [] => none
                          | c3 :: r4 =>
                              if c3 = ',' then
                                match parseObjRest fuel r4 with
                                | some p => some (JsonObj.cons k v p.1, p.2)
                                | none => none
                              else if c3 = rbrace then
                                some (JsonObj.cons k v JsonObj.nil, r4)
                              else none
                    else none
          else none

end

/-- `json.loads`: parse a complete JSON document (nothing but whitespace may
follow the value). -/
def jsonLoads (s : String) : Option Json :=
  match parseVal (s.length + 1) s.toList with
  | some (j, rest) => if skipWs rest = [] then some j else none
  | none => none

namespace ListTool

/-- The fixed catalog `ListTool.__init__` stores in `self.tool_list`. -/
def tool_list : Json :=
  Json.arr (JsonArr.ofList [Json.obj (JsonObj.ofList [
    ("name", Json.str "tools/execute_fstar"),
    ("description", Json.str "A tool that executes the given fstar code."),
    ("parameters", Json.obj (JsonObj.ofList [
      ("code", Json.obj (JsonObj.ofList [
        ("type", Json.str "string"),
        ("description", Json.str "F* code to execute")]))])),
    ("required", Json.arr (JsonArr.ofList [Json.str "code"]))])])

/-- The state `ListTool.__init__` sets up: `self.tool_list` (the catalog)
and `self._instance_dict = {}`. -/
structure LState where
  tool_list : Json
  _instance_dict : List (String × Json)

/-- The state right after `__init__`. -/
def init : LState := ⟨tool_list, []⟩

/-- `ListTool.create`: when no id is supplied the local `instance_id` is
rebound to `str(uuid4())` (the `fresh` argument) — but the method body has
no `return` statement, so Python returns `None` either way, despite the
`-> str` annotation. -/
def create (instance_id : Option String) (fresh : String) : Option String :=
  let _instance_id := match instance_id with
    | none => fresh
    | some i => i
  none

/-- `ListTool.execute`:
`return json.dumps(self.tool_list, indent=2), 0, {}`. -/
def execute (s : LState) (_instance_id : String)
    (_parameters : List (String × Json)) : ToolResult :=
  (dumps2 s.tool_list, 0, [])

/-- `ListTool.release`: `pass`. -/
def release (s : LState) (_instance_id : String)
    (_kwargs : List (String × Json)) : LState :=
  s

/-- One lifecycle call on a `ListTool` instance. -/
inductive LOp where
  | createOp : Option String → String → LOp
  | executeOp : String → List (String × Json) → LOp
  | releaseOp : String → List (String × Json) → LOp

/-- The state transition of one lifecycle call; no method assigns to
`self`. -/
def step (s : LState) : LOp → LState
  | LOp.createOp iid fresh =>
      let _ := create iid fresh
      s
  | LOp.executeOp iid ps =>
      let _ := execute s iid ps
      s
  | LOp.releaseOp iid kw => release s iid kw

/-- Run a sequence of lifecycle calls from a given state. -/
def run (s : LState) (ops : List LOp) : LState := ops.foldl step s

end ListTool

/-- The exact string `json.dumps(self.tool_list, indent=2)` produces for the
catalog (verified below by evaluating the serializer). -/
def catalogString : String :=
  "[\n  \x7b\n    \"name\": \"tools/execute_fstar\",\n    \"description\": \"A tool that executes the given fstar code.\",\n    \"parameters\": \x7b\n      \"code\": \x7b\n        \"type\": \"string\",\n        \"description\": \"F* code to execute\"\n      \x7d\n    \x7d,\n    \"required\": [\n      \"code\"\n    ]\n  \x7d\n]"

/-! ## Helper lemmas shared by several claim theorems -/

/-- Unfolding `FStarExecutionTool.execute` when `parameters["code"]` and
`kwargs["tools_kwargs"]["example_name"]` all succeed: the call reduces to
handling the outcome of the single POST built from those values. -/
theorem execute_eq_tryBlock (env : Option String) (net : HttpRequest → NetOutcome)
    (iid : String) (ps kw : List (String × Json)) (c : Json) (tk : JsonObj)
    (en : Json)
    (h1 : alistFind ps "code" = some c)
    (h2 : alistFind kw "tools_kwargs" = some (Json.obj tk))
    (h3 : objFind tk "example_name" = some en) :
    FStarExecutionTool.execute env net iid ps kw =
      match tryBlock ((env.getD "http://localhost:8005") ++ "/check_problem_solution")
          (net ⟨(env.getD "http://localhost:8005") ++ "/check_problem_solution",
            [("solution", c), ("problem_id", en)], 15⟩) with
      | Except.ok r => Except.ok r
      | Except.error e => Except.ok (runtimeErrorResult e) := by
  simp only [FStarExecutionTool.execute, dictGetItem, jsonGetItem, h1, h2, h3]

/-- Every result the `try:` block returns normally carries the
boolean-verdict message, score `0` and empty metadata. -/
theorem tryBlock_ok_shape (url : String) (out : NetOutcome) (msg : String)
    (sc : Int) (md : List (String × Json))
    (h : tryBlock url out = Except.ok (msg, sc, md)) :
    (∃ v msgs, msg = ("Verification Success: " ++ pyStrBool v ++ "\n") ++ msgs) ∧
      sc = 0 ∧ md = [] := by
  unfold tryBlock at h
  repeat' split at h
  all_goals try exact Except.noConfusion h
  injection h with h'
  exact ⟨⟨_, _, (congrArg Prod.fst h').symm⟩, (congrArg (fun p => p.2.1) h').symm,
    (congrArg (fun p => p.2.2) h').symm⟩

/-- No `ListTool` lifecycle call changes the instance state. -/
theorem listTool_step_eq (s : ListTool.LState) (op : ListTool.LOp) :
    ListTool.step s op = s := by
  cases op <;> rfl

/-- Running any sequence of `ListTool` lifecycle calls leaves the state. -/
theorem listTool_run_eq (s : ListTool.LState) (ops : List ListTool.LOp) :
    ListTool.run s ops = s := by
  induction ops generalizing s with
  | nil => rfl
  | cons op rest ih => rw [ListTool.run, List.foldl_cons, listTool_step_eq]; exact ih s

/-- No `FStarExecutionTool` lifecycle call changes the instance state. -/
theorem fstar_step_eq (s : FStarExecutionTool.State)
    (op : FStarExecutionTool.Op) : FStarExecutionTool.step s op = s := by
  cases op <;> rfl

/-- Running any sequence of `FStarExecutionTool` lifecycle calls leaves the
state. -/
theorem fstar_run_eq (s : FStarExecutionTool.State)
    (ops : List FStarExecutionTool.Op) : FStarExecutionTool.run s ops = s := by
  induction ops generalizing s with
  | nil => rfl
  | cons op rest ih =>
      rw [FStarExecutionTool.run, List.foldl_cons, fstar_step_eq]
      exact ih s

/-! ## Claim theorems -/

/-- Claim C3: for both tools, `create` with an omitted id returns the fresh
token and `create` with an explicit id returns that id. This holds for
`FStarExecutionTool.create`; `ListTool.create` has no `return` statement, so
it evaluates to `None` for every input (explicit id or not), contradicting
its own `-> str` annotation and the lifecycle contract — the failing
evaluations are recorded here, next to the correct behaviour of the other
tool and the distinctness of two omitted-id results. -/
theorem C3_create_evaluation :
    ListTool.create (some "abc") "11111111-2222-3333-4444-555555555555" = none ∧
    ListTool.create none "11111111-2222-3333-4444-555555555555" = none ∧
    FStarExecutionTool.create (some "abc")
      "11111111-2222-3333-4444-555555555555" = "abc" ∧
    FStarExecutionTool.create none "11111111-2222-3333-4444-555555555555" =
      "11111111-2222-3333-4444-555555555555" ∧
    FStarExecutionTool.create none "66666666-7777-8888-9999-000000000000" =
      "66666666-7777-8888-9999-000000000000" ∧
    ("11111111-2222-3333-4444-555555555555" : String) ≠
      "66666666-7777-8888-9999-000000000000" :=
  ⟨rfl, rfl, rfl, rfl, rfl, by decide⟩

/-- Claim C8: for both tools, `release` accepts any instance id and any
extra arguments — including ids never created or already released — and
leaves the whole tool state unchanged (it is embedded as a total function,
since its body `pass` cannot raise). -/
theorem C8_release_noop :
    (∀ (s : ListTool.LState) (iid : String) (kw : List (String × Json)),
      ListTool.release s iid kw = s) ∧
    (∀ (s : FStarExecutionTool.State) (iid : String)
        (kw : List (String × Json)),
      FStarExecutionTool.release s iid kw = s) :=
  ⟨fun _ _ _ => rfl, fun _ _ _ => rfl⟩

/-- Claim C9: for both tools, `_instance_dict` is empty at construction,
no lifecycle call (`create` / `execute` / `release`) ever changes it — in
particular it stays empty after every call sequence — and `execute` does
not read it (`ListTool.execute` yields the same result for any dict
contents; `FStarExecutionTool.execute` does not take the state at all, and
its step preserves it). -/
theorem C9_instance_dict_invariant :
    ListTool.init._instance_dict = [] ∧
    (∀ (s : ListTool.LState) (op : ListTool.LOp),
      (ListTool.step s op)._instance_dict = s._instance_dict) ∧
    (∀ ops : List ListTool.LOp,
      (ListTool.run ListTool.init ops)._instance_dict = []) ∧
    (∀ (tl : Json) (d d' : List (String × Json)) (iid : String)
        (ps : List (String × Json)),
      ListTool.execute ⟨tl, d⟩ iid ps = ListTool.execute ⟨tl, d'⟩ iid ps) ∧
    FStarExecutionTool.init._instance_dict = [] ∧
    (∀ (s : FStarExecutionTool.State) (op : FStarExecutionTool.Op),
      (FStarExecutionTool.step s op)._instance_dict = s._instance_dict) ∧
    (∀ ops : List FStarExecutionTool.Op,
      (FStarExecutionTool.run FStarExecutionTool.init ops)._instance_dict = []) :=
  ⟨rfl,
   fun s op => by rw [listTool_step_eq],
   fun ops => by rw [listTool_run_eq]; rfl,
   fun _ _ _ _ _ => rfl,
   rfl,
   fun s op => by rw [fstar_step_eq],
   fun ops => by rw [fstar_run_eq]; rfl⟩

/-- Claim C10: for both tools, the result of `execute` does not depend on
the `instance_id` argument: with identical parameters, extra arguments and
network, any two instance ids (created, released, or never created — the
tools keep no per-instance state) produce identical result triples. -/
theorem C10_execute_ignores_instance_id :
    (∀ (s : ListTool.LState) (i1 i2 : String) (ps : List (String × Json)),
      ListTool.execute s i1 ps = ListTool.execute s i2 ps) ∧
    (∀ (env : Option String) (net : HttpRequest → NetOutcome) (i1 i2 : String)
        (ps kw : List (String × Json)),
      FStarExecutionTool.execute env net i1 ps kw =
        FStarExecutionTool.execute env net i2 ps kw) :=
  ⟨fun _ _ _ _ => rfl, fun _ _ _ _ _ _ => rfl⟩

/-- The evaluated default of `resp_json.get("return_code", -2) == 0`. -/
theorem pyEqNum_default_rc : pyEqNum (Json.num (-2)) 0 = false := by decide

/-- Claim C1, as stated, is false: `parameters["code"]` and
`kwargs["tools_kwargs"]["example_name"]` are read *before* the `try:`
block, so a call whose `parameters` lack `"code"` propagates a `KeyError`
to the caller instead of returning a runtime-error message. -/
theorem C1_counterexample :
    FStarExecutionTool.execute none (fun _ => NetOutcome.exn ⟨"k", "d"⟩) "inst"
      [] [] =
      Except.error ⟨"<class \x27KeyError\x27>", "\x27code\x27"⟩ := rfl

/-- Claim C1 (amended): for every call whose `parameters` contain `"code"`
and whose extra arguments contain a `tools_kwargs` mapping with
`"example_name"`, `execute` never raises: it returns a triple with score 0
and empty metadata whose message is either a verification verdict or a
runtime-error message of the form
`"Runtime error occurred.\n<error-kind>: <error-detail>"` — every
exception in the request/response path is absorbed. -/
theorem C1_execute_total (env : Option String) (net : HttpRequest → NetOutcome)
    (iid : String) (ps kw : List (String × Json)) (c : Json) (tk : JsonObj)
    (en : Json)
    (h1 : alistFind ps "code" = some c)
    (h2 : alistFind kw "tools_kwargs" = some (Json.obj tk))
    (h3 : objFind tk "example_name" = some en) :
    ∃ msg : String,
      FStarExecutionTool.execute env net iid ps kw = Except.ok (msg, 0, []) ∧
        ((∃ v msgs,
            msg = ("Verification Success: " ++ pyStrBool v ++ "\n") ++ msgs) ∨
          ∃ e : PyExc,
            msg = "Runtime error occurred.\n" ++ e.kind ++ ": " ++ e.detail) := by
  rw [execute_eq_tryBlock env net iid ps kw c tk en h1 h2 h3]
  cases htb : tryBlock
      ((env.getD "http://localhost:8005") ++ "/check_problem_solution")
      (net ⟨(env.getD "http://localhost:8005") ++ "/check_problem_solution",
        [("solution", c), ("problem_id", en)], 15⟩) with
  | error e => exact ⟨_, rfl, Or.inr ⟨e, rfl⟩⟩
  | ok r =>
      obtain ⟨m, sc, md⟩ := r
      obtain ⟨hform, hsc, hmd⟩ := tryBlock_ok_shape _ _ m sc md htb
      subst hsc hmd
      exact ⟨m, rfl, Or.inl hform⟩

/-- Witness for C1: a concrete call whose network request times out returns
the runtime-error triple. -/
theorem C1_execute_total_witness :
    ∃ msg : String,
      FStarExecutionTool.execute none
          (fun _ => NetOutcome.exn
            ⟨"<class \x27asyncio.exceptions.TimeoutError\x27>", ""⟩) "inst"
          [("code", Json.str "let x = 1")]
          [("tools_kwargs", Json.obj (JsonObj.ofList
            [("example_name", Json.str "problem_42")]))] =
        Except.ok (msg, 0, []) ∧
        ((∃ v msgs,
            msg = ("Verification Success: " ++ pyStrBool v ++ "\n") ++ msgs) ∨
          ∃ e : PyExc,
            msg = "Runtime error occurred.\n" ++ e.kind ++ ": " ++ e.detail) :=
  C1_execute_total none
    (fun _ => NetOutcome.exn
      ⟨"<class \x27asyncio.exceptions.TimeoutError\x27>", ""⟩)
    "inst" [("code", Json.str "let x = 1")]
    [("tools_kwargs", Json.obj (JsonObj.ofList
      [("example_name", Json.str "problem_42")]))] (Json.str "let x = 1")
    (JsonObj.ofList [("example_name", Json.str "problem_42")])
    (Json.str "problem_42") rfl rfl rfl

/-- Claim C2, as stated, is false: a 2xx response whose body parses as JSON
but not as a JSON *object* (here the empty list) makes `resp_json.get`
raise `AttributeError`, which the handler converts into the runtime-error
message — not the concatenated verdict message (which for this body would
be `"Verification Success: False\n"`). -/
theorem C2_counterexample :
    FStarExecutionTool.execute none
        (fun _ => NetOutcome.response 200 "OK"
          (Except.ok (Json.arr JsonArr.nil)))
        "inst" [("code", Json.str "let x = 1")]
        [("tools_kwargs", Json.obj (JsonObj.ofList
          [("example_name", Json.str "problem_42")]))] =
      Except.ok
        ("Runtime error occurred.\n<class \x27AttributeError\x27>: \x27list\x27 object has no attribute \x27get\x27",
          0, []) ∧
    ("Runtime error occurred.\n<class \x27AttributeError\x27>: \x27list\x27 object has no attribute \x27get\x27" : String) ≠
      "Verification Success: False\n" :=
  ⟨rfl, by decide⟩

/-- Claim C2 (amended): for every call whose `parameters` contain `"code"`
and whose extra arguments provide `tools_kwargs.example_name`, if the POST
yields a 2xx response whose body parses as a JSON *object* whose
`"messages"` field is absent or a string, then `execute` returns the
message `"Verification Success: " + verdict + "\n" + messages` with score
0 and empty metadata, where verdict is `"True"` iff the `return_code`
field equals 0 (absent: the default `-2`, hence false) and the `score`
field equals 1.0 (absent: false), and `messages` defaults to `""`. -/
theorem C2_success_message (env : Option String) (net : HttpRequest → NetOutcome)
    (iid : String) (ps kw : List (String × Json)) (c : Json) (tk : JsonObj)
    (en : Json) (st : Nat) (reason : String) (fields : JsonObj)
    (h1 : alistFind ps "code" = some c)
    (h2 : alistFind kw "tools_kwargs" = some (Json.obj tk))
    (h3 : objFind tk "example_name" = some en)
    (hnet : net ⟨(env.getD "http://localhost:8005") ++ "/check_problem_solution",
      [("solution", c), ("problem_id", en)], 15⟩ =
      NetOutcome.response st reason (Except.ok (Json.obj fields)))
    (hst1 : 200 ≤ st) (hst2 : st < 300)
    (hmsg : objFind fields "messages" = none ∨
      ∃ s, objFind fields "messages" = some (Json.str s)) :
    FStarExecutionTool.execute env net iid ps kw =
      Except.ok (("Verification Success: " ++
        pyStrBool ((match objFind fields "return_code" with
          | some j => pyEqNum j 0
          | none => false) &&
          (match objFind fields "score" with
          | some j => pyEqNum j 1
          | none => false)) ++ "\n") ++
        (match objFind fields "messages" with
          | some (Json.str s) => s
          | _ => ""), 0, []) := by
  rw [execute_eq_tryBlock env net iid ps kw c tk en h1 h2 h3, hnet]
  have hst : ¬ 400 ≤ st := by omega
  unfold tryBlock raiseForStatus returnCodeOk scoreOk messagesField pyDictGet
  rcases hmsg with hm | ⟨s, hm⟩ <;>
    rcases hrc : objFind fields "return_code" with _ | j <;>
      rcases hscore : objFind fields "score" with _ | j2 <;>
        simp [hst, hm, hrc, hscore, pyEqNum_default_rc]

/-- Witness for C2: the mocked scenario of the specification — reply
`{"return_code": 0, "score": 1.0, "messages": "OK"}` yields exactly
`("Verification Success: True\nOK", 0, {})`. -/
theorem C2_success_message_witness :
    FStarExecutionTool.execute none
        (fun _ => NetOutcome.response 200 "OK" (Except.ok (Json.obj
          (JsonObj.ofList [("return_code", Json.num 0), ("score", Json.num 1),
            ("messages", Json.str "OK")]))))
        "inst" [("code", Json.str "let x = 1")]
        [("tools_kwargs", Json.obj (JsonObj.ofList
          [("example_name", Json.str "problem_42")]))] =
      Except.ok ("Verification Success: True\nOK", 0, []) := by
  have h := C2_success_message none
    (fun _ => NetOutcome.response 200 "OK" (Except.ok (Json.obj
      (JsonObj.ofList [("return_code", Json.num 0), ("score", Json.num 1),
        ("messages", Json.str "OK")]))))
    "inst" [("code", Json.str "let x = 1")]
    [("tools_kwargs", Json.obj (JsonObj.ofList
      [("example_name", Json.str "problem_42")]))] (Json.str "let x = 1")
    (JsonObj.ofList [("example_name", Json.str "problem_42")])
    (Json.str "problem_42") 200 "OK"
    (JsonObj.ofList [("return_code", Json.num 0), ("score", Json.num 1),
      ("messages", Json.str "OK")])
    rfl rfl rfl rfl (by omega) (by omega) (Or.inr ⟨"OK", rfl⟩)
  exact h

/-- Claim C4: every triple `execute` returns — success verdict true or
false, or runtime-error message — has score 0 and empty metadata; the
verification outcome lives only in the message string. -/
theorem C4_score_zero_metadata_empty (env : Option String)
    (net : HttpRequest → NetOutcome) (iid : String)
    (ps kw : List (String × Json)) (msg : String) (sc : Int)
    (md : List (String × Json))
    (h : FStarExecutionTool.execute env net iid ps kw =
      Except.ok (msg, sc, md)) :
    sc = 0 ∧ md = [] := by
  simp only [FStarExecutionTool.execute] at h
  repeat' split at h
  all_goals first
    | exact Except.noConfusion h
    | (rename_i r heq
       injection h with h'
       subst h'
       exact (tryBlock_ok_shape _ _ msg sc md heq).2)
    | (injection h with h'
       exact ⟨(congrArg (fun p => p.2.1) h').symm,
         (congrArg (fun p => p.2.2) h').symm⟩)

/-- Witness for C4: a concrete failing call returns score 0 and empty
metadata. -/
theorem C4_score_zero_metadata_empty_witness :
    (0 : Int) = 0 ∧ ([] : List (String × Json)) = [] :=
  C4_score_zero_metadata_empty none (fun _ => NetOutcome.exn ⟨"k", "d"⟩) "inst"
    [("code", Json.str "let x = 1")]
    [("tools_kwargs", Json.obj (JsonObj.ofList
      [("example_name", Json.str "problem_42")]))]
    "Runtime error occurred.\nk: d" 0 [] rfl

/-- Claim C5, as stated, is false: `raise_for_status` raises only for
status ≥ 400, so a non-2xx status such as 300 does not enter the error
path — the call proceeds to decode the body and returns a verdict message,
which does not start with `"Runtime error occurred."`. -/
theorem C5_counterexample :
    FStarExecutionTool.execute none
        (fun _ => NetOutcome.response 300 "Multiple Choices"
          (Except.ok (Json.obj JsonObj.nil)))
        "inst" [("code", Json.str "let x = 1")]
        [("tools_kwargs", Json.obj (JsonObj.ofList
          [("example_name", Json.str "problem_42")]))] =
      Except.ok ("Verification Success: False\n", 0, []) ∧
    List.isPrefixOf ("Runtime error occurred.".toList)
      ("Verification Success: False\n".toList) = false :=
  ⟨rfl, by decide⟩

/-- Claim C5 (amended): whenever the service replies with an HTTP status
≥ 400 (client or server error), `execute` routes that case into the same
error-formatting path as transport exceptions: the message begins with
`"Runtime error occurred."`, score is 0, metadata is empty. (A 3xx status
does not raise in `raise_for_status` and takes the normal path.) -/
theorem C5_error_status (env : Option String) (net : HttpRequest → NetOutcome)
    (iid : String) (ps kw : List (String × Json)) (c : Json) (tk : JsonObj)
    (en : Json) (st : Nat) (reason : String) (body : Except PyExc Json)
    (h1 : alistFind ps "code" = some c)
    (h2 : alistFind kw "tools_kwargs" = some (Json.obj tk))
    (h3 : objFind tk "example_name" = some en)
    (hnet : net ⟨(env.getD "http://localhost:8005") ++ "/check_problem_solution",
      [("solution", c), ("problem_id", en)], 15⟩ =
      NetOutcome.response st reason body)
    (hst : 400 ≤ st) :
    ∃ rest : String,
      FStarExecutionTool.execute env net iid ps kw =
        Except.ok ("Runtime error occurred.\n" ++ rest, 0, []) := by
  rw [execute_eq_tryBlock env net iid ps kw c tk en h1 h2 h3, hnet]
  refine ⟨"<class \x27aiohttp.client_exceptions.ClientResponseError\x27>" ++
    ": " ++ (toString st ++ ", message=\x27" ++ reason ++ "\x27, url=\x27" ++
      ((env.getD "http://localhost:8005") ++ "/check_problem_solution") ++
      "\x27"), ?_⟩
  unfold tryBlock raiseForStatus
  dsimp only
  rw [if_pos hst]
  conv_rhs => rw [← String.append_assoc, ← String.append_assoc]
  rfl

/-- Witness for C5: a simulated 500 response yields the runtime-error
message. -/
theorem C5_error_status_witness :
    ∃ rest : String,
      FStarExecutionTool.execute none
          (fun _ => NetOutcome.response 500 "Internal Server Error"
            (Except.ok Json.null))
          "inst" [("code", Json.str "let x = 1")]
          [("tools_kwargs", Json.obj (JsonObj.ofList
            [("example_name", Json.str "problem_42")]))] =
        Except.ok ("Runtime error occurred.\n" ++ rest, 0, []) :=
  C5_error_status none
    (fun _ => NetOutcome.response 500 "Internal Server Error"
      (Except.ok Json.null))
    "inst" [("code", Json.str "let x = 1")]
    [("tools_kwargs", Json.obj (JsonObj.ofList
      [("example_name", Json.str "problem_42")]))] (Json.str "let x = 1")
    (JsonObj.ofList [("example_name", Json.str "problem_42")])
    (Json.str "problem_42") 500 "Internal Server Error" (Except.ok Json.null)
    rfl rfl rfl rfl (by omega)

set_option maxRecDepth 40000 in
/-- Claim C6: `ListTool.execute` ignores its instance id and parameters and
returns the fixed catalog serialized as a string (score 0, empty metadata);
parsing that string back with a JSON parser yields exactly the static
catalog: a single entry named `"tools/execute_fstar"` whose required list
is `["code"]` and whose parameter schema has the one string parameter
`"code"`. -/
theorem C6_list_catalog (iid : String) (ps : List (String × Json)) :
    ListTool.execute ListTool.init iid ps = (catalogString, 0, []) ∧
    jsonLoads catalogString = some ListTool.tool_list ∧
    ∃ entry : JsonObj,
      ListTool.tool_list =
        Json.arr (JsonArr.cons (Json.obj entry) JsonArr.nil) ∧
      objFind entry "name" = some (Json.str "tools/execute_fstar") ∧
      objFind entry "required" =
        some (Json.arr (JsonArr.cons (Json.str "code") JsonArr.nil)) ∧
      objFind entry "parameters" = some (Json.obj (JsonObj.cons "code"
        (Json.obj (JsonObj.ofList [("type", Json.str "string"),
          ("description", Json.str "F* code to execute")]))
        JsonObj.nil)) :=
  ⟨rfl, rfl, JsonObj.ofList [
    ("name", Json.str "tools/execute_fstar"),
    ("description", Json.str "A tool that executes the given fstar code."),
    ("parameters", Json.obj (JsonObj.ofList [
      ("code", Json.obj (JsonObj.ofList [
        ("type", Json.str "string"),
        ("description", Json.str "F* code to execute")]))])),
    ("required", Json.arr (JsonArr.ofList [Json.str "code"]))],
    rfl, rfl, rfl, rfl⟩

/-- Claim C7: when `parameters` contain `"code"` and the extra arguments
provide `tools_kwargs.example_name`, the call performs a single POST whose
URL is the `FSTAR_VERIFIER_SERVER_HOST` value (default
`http://localhost:8005`) plus the fixed path `/check_problem_solution`,
whose JSON body is exactly
`[("solution", parameters["code"]), ("problem_id", tools_kwargs["example_name"])]`
and whose total timeout is 15 seconds: the result is exactly the handling
of the network outcome for that one request, and any two networks that
agree on that one request give identical results. -/
theorem C7_request_shape (env : Option String) (net : HttpRequest → NetOutcome)
    (iid : String) (ps kw : List (String × Json)) (c : Json) (tk : JsonObj)
    (en : Json)
    (h1 : alistFind ps "code" = some c)
    (h2 : alistFind kw "tools_kwargs" = some (Json.obj tk))
    (h3 : objFind tk "example_name" = some en) :
    (FStarExecutionTool.execute env net iid ps kw =
      match tryBlock
          ((env.getD "http://localhost:8005") ++ "/check_problem_solution")
          (net ⟨(env.getD "http://localhost:8005") ++ "/check_problem_solution",
            [("solution", c), ("problem_id", en)], 15⟩) with
      | Except.ok r => Except.ok r
      | Except.error e => Except.ok (runtimeErrorResult e)) ∧
    ∀ net2 : HttpRequest → NetOutcome,
      net2 ⟨(env.getD "http://localhost:8005") ++ "/check_problem_solution",
        [("solution", c), ("problem_id", en)], 15⟩ =
      net ⟨(env.getD "http://localhost:8005") ++ "/check_problem_solution",
        [("solution", c), ("problem_id", en)], 15⟩ →
      FStarExecutionTool.execute env net2 iid ps kw =
        FStarExecutionTool.execute env net iid ps kw := by
  constructor
  · exact execute_eq_tryBlock env net iid ps kw c tk en h1 h2 h3
  · intro net2 hagree
    rw [execute_eq_tryBlock env net2 iid ps kw c tk en h1 h2 h3,
      execute_eq_tryBlock env net iid ps kw c tk en h1 h2 h3, hagree]

/-- Witness for C7: with a custom base URL, a network answering only the
expected request behaves like a constant network, and the concrete call
returns the handled outcome of that one request. -/
theorem C7_request_shape_witness :
    FStarExecutionTool.execute (some "http://verifier.test")
        (fun _ => NetOutcome.exn ⟨"k", "d"⟩) "inst"
        [("code", Json.str "let x = 1")]
        [("tools_kwargs", Json.obj (JsonObj.ofList
          [("example_name", Json.str "problem_42")]))] =
      Except.ok ("Runtime error occurred.\nk: d", 0, []) ∧
    FStarExecutionTool.execute (some "http://verifier.test")
        (fun r => if r.timeoutTotal = 15 then NetOutcome.exn ⟨"k", "d"⟩
          else NetOutcome.response 200 "OK" (Except.ok Json.null)) "inst"
        [("code", Json.str "let x = 1")]
        [("tools_kwargs", Json.obj (JsonObj.ofList
          [("example_name", Json.str "problem_42")]))] =
      FStarExecutionTool.execute (some "http://verifier.test")
        (fun _ => NetOutcome.exn ⟨"k", "d"⟩) "inst"
        [("code", Json.str "let x = 1")]
        [("tools_kwargs", Json.obj (JsonObj.ofList
          [("example_name", Json.str "problem_42")]))] := by
  have h := C7_request_shape (some "http://verifier.test")
    (fun _ => NetOutcome.exn ⟨"k", "d"⟩) "inst"
    [("code", Json.str "let x = 1")]
    [("tools_kwargs", Json.obj (JsonObj.ofList
      [("example_name", Json.str "problem_42")]))]
    (Json.str "let x = 1")
    (JsonObj.ofList [("example_name", Json.str "problem_42")])
    (Json.str "problem_42") rfl rfl rfl
  exact ⟨h.1.trans rfl, h.2 _ rfl⟩

end Deepproof
